import Mathlib

/-!
Verification of the tracking/accounting core of SOT.py (class AppUsageTracker).

Shallow embedding conventions:
* clock readings (time.time(), datetime.now()) are integer seconds;
* a date string "YYYY-MM-DD" is represented by the integer day number of its
  midnight, so the midnight of day d is the timestamp d * 86400 and
  datetime.strptime(date) corresponds to d * 86400;
* accumulated seconds are integers (the claims under study do not depend on
  floating-point rounding);
* Python dicts (and defaultdicts) are insertion-ordered association lists;
* the durable JSON file is modelled explicitly for load_data, including
  malformed shapes, and abstractly (day-keyed store or corrupt) for save_data.
-/

namespace SOT

/-- Seconds in one calendar day. -/
def secPerDay : Int := 86400

/-- Calendar day containing a timestamp: models forming the date string
"YYYY-MM-DD" of a clock reading t, as the floor of t / 86400. -/
def dayOf (t : Int) : Int := Int.fdiv t secPerDay

/-- Inner per-day dict of usage_data: application identifier to accumulated
seconds, in Python dict insertion order. -/
abbrev Apps := List (String × Int)

/-- usage_data: date (day number) to per-day dict, in insertion order. -/
abbrev Store := List (Int × Apps)

/-- First-match lookup in a per-day dict. -/
def lookupApp : Apps → String → Option Int
  | [], _ => none
  | (b, w) :: rest, a => if b = a then some w else lookupApp rest a

/-- First-match lookup of a date in the store. -/
def lookupDay : Store → Int → Option Apps
  | [], _ => none
  | (e, apps) :: rest, d => if e = d then some apps else lookupDay rest d

/-- Accumulated seconds for (date, application), if present. -/
def lookup2 (st : Store) (d : Int) (a : String) : Option Int :=
  match lookupDay st d with
  | some apps => lookupApp apps a
  | none => none

/-- apps[a] += v with defaultdict(float) semantics: a missing key is created
with value v, appended at the end as Python dict insertion does. -/
def creditApps : Apps → String → Int → Apps
  | [], a, v => [(a, v)]
  | (b, w) :: rest, a, v =>
      if b = a then (b, w + v) :: rest else (b, w) :: creditApps rest a v

/-- usage_data[date][app] += v: models line 101 of SOT.py
(self.usage_data[current_date][self.last_app] += time_diff), with the outer
defaultdict creating a missing date entry. -/
def credit : Store → Int → String → Int → Store
  | [], d, a, v => [(d, [(a, v)])]
  | (e, apps) :: rest, d, a, v =>
      if e = d then (e, creditApps apps a v) :: rest
      else (e, apps) :: credit rest d a v

/-- The sampler-relevant state of AppUsageTracker: the nested usage_data
mapping and the last_app / last_time fields of the tracking loop. -/
structure Tracker where
  usage_data : Store
  last_app : Option String
  last_time : Int
deriving DecidableEq

/-- State of a fresh AppUsageTracker right after __init__ (empty store,
last_app = None, last_time = time.time() at construction). -/
def initTracker (t0 : Int) : Tracker :=
  Tracker.mk [] none t0

/-- One iteration of AppUsageTracker.track_usage (lines 93-105 of SOT.py):
read the probe result and the clock, and if last_app is not None add
time_diff = now - last_time to usage_data[day of now][last_app]; then set
last_app and last_time. -/
def tick (s : Tracker) (probeApp : String) (now : Int) : Tracker :=
  let st :=
    match s.last_app with
    | some a => credit s.usage_data (dayOf now) a (now - s.last_time)
    | none => s.usage_data
  Tracker.mk st (some probeApp) now

/-- A finite run of the tracking loop over a list of (probe result, clock
reading) pairs. -/
def runTicks (s : Tracker) : List (String × Int) → Tracker
  | [] => s
  | (p, t) :: rest => runTicks (tick s p t) rest

/-- The close-out flush at the start of save_data (lines 121-123 of SOT.py):
if last_app is truthy (not None and not the empty string), credit
time.time() - last_time to usage_data[day of now][last_app]. Note that
last_app and last_time are NOT modified. -/
def save_flush (s : Tracker) (now : Int) : Tracker :=
  match s.last_app with
  | some a =>
      if a = "" then s
      else Tracker.mk (credit s.usage_data (dayOf now) a (now - s.last_time))
        s.last_app s.last_time
  | none => s

/-- The retention filter applied to the data written by save_data (lines
126-129 of SOT.py): keep a date iff
(datetime.now() - strptime(date)).days <= 7, where timedelta.days is floor
division of the difference in seconds by 86400. Only the serialized copy is
filtered; usage_data itself is untouched. -/
def save_filter (st : Store) (now : Int) : Store :=
  st.filter (fun e => decide (Int.fdiv (now - e.1 * secPerDay) secPerDay ≤ 7))

/-- Contents of the durable file as far as save_data is concerned: either a
well-formed store, or corrupt (truncated / partially written) bytes. -/
inductive FileData
  | good (st : Store)
  | corrupt
deriving DecidableEq

/-- Injected failure point for one call to save_data. SOT.py opens
self.data_file itself with mode w (no temporary file, no rename): an open
that raises (e.g. permission denied) happens before truncation, while a
failure once writing has begun leaves the file truncated or partial. -/
inductive SaveFail
  | ok
  | atOpen
  | duringWrite
deriving DecidableEq

/-- AppUsageTracker.save_data (lines 119-133 of SOT.py) acting on the tracker
state and the durable file, with an injected failure point. The flush runs
first (inside the try, before open), then the file is opened with mode w and
the retention-filtered data is dumped; any exception is caught and False is
returned. Returns (new tracker state, new file contents, return value). -/
def save_data (s : Tracker) (now : Int) (file : Option FileData)
    (outcome : SaveFail) : Tracker × Option FileData × Bool :=
  let s2 := save_flush s now
  match outcome with
  | .ok => (s2, some (.good (save_filter s2.usage_data now)), true)
  | .atOpen => (s2, file, false)
  | .duringWrite => (s2, some .corrupt, false)

/-- Sum of the seconds of one per-day dict. -/
def sumApps (l : Apps) : Int := (l.map Prod.snd).sum

/-- The amount the save_data close-out flush adds to the store. -/
def flushCredit (s : Tracker) (t : Int) : Int :=
  match s.last_app with
  | some a => if a = "" then 0 else t - s.last_time
  | none => 0

/-- sum(apps.values()) or 1: Python `or` replaces a zero sum by 1. -/
def totalOr1 (l : Apps) : Int :=
  if sumApps l = 0 then 1 else sumApps l

/-- Stable descending insertion: place x before the first element whose
seconds are less than or equal to those of x. -/
def insertDesc (x : String × Int) : Apps → Apps
  | [] => [x]
  | y :: ys => if y.2 ≤ x.2 then x :: y :: ys else y :: insertDesc x ys

/-- Models Python sorted(apps.items(), key=lambda x: x[1], reverse=True):
a stable sort by descending seconds (ties keep insertion order). -/
def pySortDesc : Apps → Apps
  | [] => []
  | x :: xs => insertDesc x (pySortDesc xs)

/-- AppUsageTracker.get_summary (lines 142-150 of SOT.py). With an explicit
date it uses usage_data.get(date, {}); with date omitted it indexes the
defaultdict with the current day, which inserts an empty entry when absent.
Returns ((sorted_apps, total_time), tracker state after the call). -/
def get_summary (s : Tracker) (date : Option Int) (today : Int) :
    (Apps × Int) × Tracker :=
  match date with
  | some d =>
      let apps := (lookupDay s.usage_data d).getD []
      ((pySortDesc apps, totalOr1 apps), s)
  | none =>
      let apps := (lookupDay s.usage_data today).getD []
      let st :=
        match lookupDay s.usage_data today with
        | some _ => s.usage_data
        | none => s.usage_data ++ [(today, [])]
      ((pySortDesc apps, totalOr1 apps), Tracker.mk st s.last_app s.last_time)

/-- A top-level JSON object key in the durable file: either a string that
datetime.strptime parses as a date (represented by its day number), or one
on which strptime raises ValueError. -/
inductive DKey
  | valid (d : Int)
  | invalid (s : String)
deriving DecidableEq

/-- A scalar JSON value appearing as a per-application seconds entry. -/
inductive JLeaf
  | jnum (v : Int)
  | jstr (s : String)
  | jbool (b : Bool)
  | jnull
deriving DecidableEq

/-- The JSON value stored under one date key: an object (the normal shape)
or a scalar. -/
inductive JApps
  | aobj (entries : List (String × JLeaf))
  | aleaf (v : JLeaf)
deriving DecidableEq

/-- The top-level JSON value of the durable file. -/
inductive JTop
  | tobj (entries : List (DKey × JApps))
  | tarr (elems : List JLeaf)
  | tleaf (v : JLeaf)
deriving DecidableEq

/-- Errors raised by open / json.load that load_data catches. -/
inductive LoadErr
  | ioError
  | decodeError
deriving DecidableEq

/-- Exceptions that escape load_data uncaught (only json.JSONDecodeError,
IOError and ValueError are caught at lines 43-44 of SOT.py). -/
inductive PyExc
  | attrError
  | typeError
deriving DecidableEq

/-- usage_data as populated by load_data: date keys are the raw strings of
the file and leaf values are copied verbatim, whatever JSON scalars they
are. -/
abbrev RawStore := List (DKey × List (String × JLeaf))

/-- First-match lookup of a date key in a raw store
(`date in self.usage_data`). -/
def rawLookup : RawStore → DKey → Option (List (String × JLeaf))
  | [], _ => none
  | (k, apps) :: rest, d => if k = d then some apps else rawLookup rest d

/-- The for loop of load_data (lines 38-42 of SOT.py) over the parsed
top-level items, starting from store acc. A ValueError (bad date key via
strptime, or dict.update on a non-empty string) is caught by the enclosing
try and silently ends the load, keeping whatever was already loaded; a
TypeError (dict.update on a non-iterable value) escapes uncaught. In both
update-failure cases self.usage_data[date] has already inserted an empty
entry for the date before update raises. Returns the final store and the
uncaught exception, if any. -/
def loadLoop (now : Int) (acc : RawStore) :
    List (DKey × JApps) → RawStore × Option PyExc
  | [] => (acc, none)
  | (date, apps) :: rest =>
      if (rawLookup acc date).isSome then loadLoop now acc rest
      else
        match date with
        | .invalid _ => (acc, none)
        | .valid d =>
            if now - d * secPerDay ≤ 7 * secPerDay then
              match apps with
              | .aobj kvs => loadLoop now (acc ++ [(date, kvs)]) rest
              | .aleaf (.jstr str) =>
                  if str = "" then loadLoop now (acc ++ [(date, [])]) rest
                  else (acc ++ [(date, [])], none)
              | .aleaf _ => (acc ++ [(date, [])], some .typeError)
            else loadLoop now acc rest

/-- AppUsageTracker.load_data (lines 33-44 of SOT.py), called on the empty
initial store. The file argument is None when os.path.exists is false;
otherwise it is the outcome of open + json.load. Errors raised there
(IOError, json.JSONDecodeError) are caught and leave the store empty; a
parsed non-object top level raises AttributeError at data.items(),
uncaught. Returns the resulting store and the uncaught exception, if
any. -/
def load_data (now : Int) (file : Option (Except LoadErr JTop)) :
    RawStore × Option PyExc :=
  match file with
  | none => ([], none)
  | some (.error _) => ([], none)
  | some (.ok (.tobj entries)) => loadLoop now [] entries
  | some (.ok _) => ([], some .attrError)

/-! ### Helper lemmas about credit and the lookups -/

/-- Total seconds recorded in the whole store. -/
def storeTotal (st : Store) : Int := (st.map (fun e => sumApps e.2)).sum

theorem sumApps_creditApps (l : Apps) (a : String) (v : Int) :
    sumApps (creditApps l a v) = sumApps l + v := by
  induction l with
  | nil => simp [creditApps, sumApps]
  | cons hd tl ih =>
      obtain ⟨b, w⟩ := hd
      by_cases h : b = a
      · simp [creditApps, h, sumApps]
        ring
      · simp only [creditApps, if_neg h, sumApps, List.map_cons, List.sum_cons] at ih ⊢
        omega

theorem storeTotal_credit (st : Store) (d : Int) (a : String) (v : Int) :
    storeTotal (credit st d a v) = storeTotal st + v := by
  induction st with
  | nil => simp [credit, storeTotal, sumApps]
  | cons hd tl ih =>
      obtain ⟨e, apps⟩ := hd
      by_cases h : e = d
      · simp only [credit, if_pos h, storeTotal, List.map_cons, List.sum_cons,
          sumApps_creditApps]
        ring
      · simp only [credit, if_neg h, storeTotal, List.map_cons, List.sum_cons] at ih ⊢
        omega

theorem lookupApp_creditApps_self (l : Apps) (a : String) (v : Int) :
    lookupApp (creditApps l a v) a = some ((lookupApp l a).getD 0 + v) := by
  induction l with
  | nil => simp [creditApps, lookupApp]
  | cons hd tl ih =>
      obtain ⟨b, w⟩ := hd
      by_cases h : b = a
      · simp [creditApps, h, lookupApp]
      · simp [creditApps, h, lookupApp, ih]

theorem lookupApp_creditApps_other (l : Apps) (a b : String) (v : Int)
    (h : b ≠ a) :
    lookupApp (creditApps l a v) b = lookupApp l b := by
  have hab : a ≠ b := Ne.symm h
  induction l with
  | nil => simp [creditApps, lookupApp, hab]
  | cons hd tl ih =>
      obtain ⟨c, w⟩ := hd
      by_cases hc : c = a
      · subst hc
        simp [creditApps, lookupApp, hab]
      · by_cases hb : c = b
        · subst hb
          simp [creditApps, hc, lookupApp]
        · simp [creditApps, hc, lookupApp, hb, ih]

theorem lookupDay_credit_self (st : Store) (d : Int) (a : String) (v : Int) :
    lookupDay (credit st d a v) d =
      some (creditApps ((lookupDay st d).getD []) a v) := by
  induction st with
  | nil => simp [credit, lookupDay, creditApps]
  | cons hd tl ih =>
      obtain ⟨e, apps⟩ := hd
      by_cases h : e = d
      · simp [credit, h, lookupDay]
      · simp [credit, h, lookupDay, ih]

theorem lookupDay_credit_other (st : Store) (d e : Int) (a : String) (v : Int)
    (h : e ≠ d) :
    lookupDay (credit st d a v) e = lookupDay st e := by
  have hde : d ≠ e := Ne.symm h
  induction st with
  | nil => simp [credit, lookupDay, hde]
  | cons hd tl ih =>
      obtain ⟨f, apps⟩ := hd
      by_cases hf : f = d
      · subst hf
        simp [credit, lookupDay, hde]
      · by_cases he : f = e
        · subst he
          simp [credit, hf, lookupDay]
        · simp [credit, hf, lookupDay, he, ih]

theorem lookup2_credit_self (st : Store) (d : Int) (a : String) (v : Int) :
    lookup2 (credit st d a v) d a = some ((lookup2 st d a).getD 0 + v) := by
  unfold lookup2
  rw [lookupDay_credit_self]
  cases h : lookupDay st d with
  | none => simp [lookupApp_creditApps_self, lookupApp]
  | some apps => simp [lookupApp_creditApps_self]

theorem lookup2_credit_other (st : Store) (d : Int) (a : String) (v : Int)
    (e : Int) (b : String) (h : ¬(e = d ∧ b = a)) :
    lookup2 (credit st d a v) e b = lookup2 st e b := by
  by_cases hd : e = d
  · subst hd
    have hb : b ≠ a := fun hb2 => h ⟨rfl, hb2⟩
    have hab : a ≠ b := Ne.symm hb
    unfold lookup2
    rw [lookupDay_credit_self]
    cases hl : lookupDay st e with
    | none => simp [lookupApp_creditApps_other _ _ _ _ hb, lookupApp, hab]
    | some apps => simp [lookupApp_creditApps_other _ _ _ _ hb]
  · unfold lookup2
    rw [lookupDay_credit_other _ _ _ _ _ hd]

theorem lookupDay_credit_isSome (st : Store) (d : Int) (a : String) (v : Int)
    (e : Int) (h : (lookupDay st e).isSome = true) :
    (lookupDay (credit st d a v) e).isSome = true := by
  by_cases hd : e = d
  · subst hd
    rw [lookupDay_credit_self]
    rfl
  · rw [lookupDay_credit_other _ _ _ _ _ hd]
    exact h

/-- save_flush never removes a date from usage_data, and neither does
save_data (only the serialized copy is retention-filtered). -/
theorem lookupDay_save_isSome (s : Tracker) (now : Int)
    (file : Option FileData) (outcome : SaveFail) (d : Int)
    (h : (lookupDay s.usage_data d).isSome = true) :
    (lookupDay ((save_data s now file outcome).1).usage_data d).isSome = true := by
  have hflush : (lookupDay ((save_flush s now).usage_data) d).isSome = true := by
    unfold save_flush
    cases ha : s.last_app with
    | none => exact h
    | some a =>
        by_cases he : a = ""
        · simp only [he, if_pos rfl]
          exact h
        · simp only [if_neg he]
          exact lookupDay_credit_isSome _ _ _ _ _ h
  cases outcome <;> simpa [save_data] using hflush

/-- Telescoping of the per-tick credits: once last_app is set, a run of ticks
adds exactly (final last_time - initial last_time) seconds to the store in
total, each tick crediting its own interval exactly once. -/
theorem runTicks_total (ts : List (String × Int)) :
    ∀ (s : Tracker) (a : String), s.last_app = some a →
      storeTotal (runTicks s ts).usage_data =
        storeTotal s.usage_data + ((runTicks s ts).last_time - s.last_time) := by
  induction ts with
  | nil =>
      intro s a _
      simp [runTicks]
  | cons hd rest ih =>
      obtain ⟨p, t⟩ := hd
      intro s a ha
      have htick : tick s p t =
          Tracker.mk (credit s.usage_data (dayOf t) a (t - s.last_time))
            (some p) t := by
        simp [tick, ha]
      have h2 := ih (tick s p t) p (by rw [htick])
      simp only [runTicks] at h2 ⊢
      rw [h2, htick]
      simp [storeTotal_credit]
      ring

theorem storeTotal_save_flush (s : Tracker) (t : Int) :
    storeTotal (save_flush s t).usage_data =
      storeTotal s.usage_data + flushCredit s t := by
  unfold save_flush flushCredit
  cases ha : s.last_app with
  | none => simp
  | some a =>
      by_cases he : a = ""
      · simp [he]
      · simp [he, storeTotal_credit]

/-! ### Helper lemmas about the stable descending sort -/

theorem insertDesc_perm (x : String × Int) (l : Apps) :
    (insertDesc x l).Perm (x :: l) := by
  induction l with
  | nil => exact List.Perm.refl _
  | cons y ys ih =>
      by_cases h : y.2 ≤ x.2
      · simp [insertDesc, h]
      · simp only [insertDesc, if_neg h]
        exact ((ih.cons y).trans (List.Perm.swap x y ys))

theorem mem_insertDesc (z x : String × Int) (l : Apps) :
    z ∈ insertDesc x l ↔ z = x ∨ z ∈ l := by
  rw [(insertDesc_perm x l).mem_iff, List.mem_cons]

theorem pySortDesc_perm (l : Apps) : (pySortDesc l).Perm l := by
  induction l with
  | nil => exact List.Perm.refl _
  | cons x xs ih =>
      exact (insertDesc_perm x (pySortDesc xs)).trans (ih.cons x)

theorem insertDesc_pairwise (x : String × Int) (l : Apps)
    (h : List.Pairwise (fun p q : String × Int => q.2 ≤ p.2) l) :
    List.Pairwise (fun p q : String × Int => q.2 ≤ p.2) (insertDesc x l) := by
  induction l with
  | nil => simp [insertDesc]
  | cons y ys ih =>
      rcases List.pairwise_cons.mp h with ⟨hy, hys⟩
      by_cases hle : y.2 ≤ x.2
      · simp only [insertDesc, if_pos hle]
        refine List.pairwise_cons.mpr ⟨?_, h⟩
        intro z hz
        rcases List.mem_cons.mp hz with hz | hz
        · rw [hz]; exact hle
        · exact le_trans (hy z hz) hle
      · simp only [insertDesc, if_neg hle]
        refine List.pairwise_cons.mpr ⟨?_, ih hys⟩
        intro z hz
        rcases (mem_insertDesc z x ys).mp hz with hz | hz
        · rw [hz]; exact le_of_lt (lt_of_not_le hle)
        · exact hy z hz

theorem pySortDesc_pairwise (l : Apps) :
    List.Pairwise (fun p q : String × Int => q.2 ≤ p.2) (pySortDesc l) := by
  induction l with
  | nil => simp [pySortDesc]
  | cons x xs ih => exact insertDesc_pairwise x (pySortDesc xs) ih

theorem filter_insertDesc (v : Int) (x : String × Int) (l : Apps) :
    (insertDesc x l).filter (fun p => decide (p.2 = v)) =
      (x :: l).filter (fun p => decide (p.2 = v)) := by
  induction l with
  | nil => rfl
  | cons y ys ih =>
      by_cases hle : y.2 ≤ x.2
      · simp only [insertDesc, if_pos hle]
      · have hxy : x.2 < y.2 := lt_of_not_le hle
        simp only [insertDesc, if_neg hle]
        by_cases hx : x.2 = v
        · have hy : ¬y.2 = v := by omega
          simp [List.filter_cons, hx, hy, ih]
        · by_cases hy : y.2 = v
          · simp [List.filter_cons, hx, hy, ih]
          · simp [List.filter_cons, hx, hy, ih]

theorem filter_pySortDesc (v : Int) (l : Apps) :
    (pySortDesc l).filter (fun p => decide (p.2 = v)) =
      l.filter (fun p => decide (p.2 = v)) := by
  induction l with
  | nil => rfl
  | cons x xs ih =>
      simp only [pySortDesc]
      rw [filter_insertDesc]
      simp only [List.filter_cons, ih]

/-! ### Helper lemma about appending a fresh day entry -/

theorem lookupDay_append (st1 st2 : Store) (d : Int) :
    lookupDay (st1 ++ st2) d =
      match lookupDay st1 d with
      | some apps => some apps
      | none => lookupDay st2 d := by
  induction st1 with
  | nil => simp [lookupDay]
  | cons hd tl ih =>
      obtain ⟨e, apps⟩ := hd
      by_cases h : e = d
      · simp [lookupDay, h]
      · simp [lookupDay, h, ih]

/-! ### Claim C2 -/

/-- Claim C2 counterexample: with last_app = "a", last_time = 10 and 5
seconds already accumulated, a tick whose clock reading 4 is earlier than
last_time credits -6 (not zero): the accumulated total drops from 5 to -1
while the sampler runs, so the credited amount is negative and the
per-(day, app) total is not monotone. -/
theorem c2_counterexample :
    (tick (Tracker.mk [(0, [("a", 5)])] (some "a") 10) "b" 4).usage_data =
      [(0, [("a", -1)])] ∧ (-1 : Int) < 5 := by decide

/-- Claim C2, amended: the tick credits now - last_time unconditionally,
with no clamping; when the clock jumps backward (now < last_time) the
credited amount is negative and the (day, app) accumulated total strictly
decreases while the sampler runs. -/
theorem c2_negative_credit (s : Tracker) (p : String) (now : Int) (a : String)
    (ha : s.last_app = some a) (hlt : now < s.last_time) :
    lookup2 (tick s p now).usage_data (dayOf now) a =
      some ((lookup2 s.usage_data (dayOf now) a).getD 0 + (now - s.last_time)) ∧
    (lookup2 s.usage_data (dayOf now) a).getD 0 + (now - s.last_time) <
      (lookup2 s.usage_data (dayOf now) a).getD 0 := by
  constructor
  · simp only [tick, ha]
    exact lookup2_credit_self _ _ _ _
  · omega

/-- Claim C2 witness: the amended theorem evaluated at a concrete backward
clock jump. -/
theorem c2_witness :
    (Tracker.mk [(0, [("a", 5)])] (some "a") 10).last_app = some "a" ∧
    (4 : Int) < (Tracker.mk [(0, [("a", 5)])] (some "a") 10).last_time ∧
    (lookup2 (tick (Tracker.mk [(0, [("a", 5)])] (some "a") 10) "b" 4).usage_data
        (dayOf 4) "a" =
      some ((lookup2 (Tracker.mk [(0, [("a", 5)])] (some "a") 10).usage_data
        (dayOf 4) "a").getD 0 + (4 - 10)) ∧
    (lookup2 (Tracker.mk [(0, [("a", 5)])] (some "a") 10).usage_data
        (dayOf 4) "a").getD 0 + (4 - 10) <
      (lookup2 (Tracker.mk [(0, [("a", 5)])] (some "a") 10).usage_data
        (dayOf 4) "a").getD 0) :=
  ⟨rfl, by decide,
    c2_negative_credit (Tracker.mk [(0, [("a", 5)])] (some "a") 10) "b" 4 "a"
      rfl (by decide)⟩

/-! ### Claim C3 -/

/-- Claim C3 counterexample: with last_time = 86399 (one second before
midnight of day 0) and the tick clock reading 86401 (day 1), the whole
2-second interval is credited under day 1 - the day containing now - and
nothing is recorded under day 0, the day containing lastTimestamp. The
claim says the credit goes to the day containing lastTimestamp. -/
theorem c3_counterexample :
    dayOf 86399 = 0 ∧ dayOf 86401 = 1 ∧
    (tick (Tracker.mk [] (some "a") 86399) "b" 86401).usage_data =
      [(1, [("a", 2)])] ∧
    lookup2 (tick (Tracker.mk [] (some "a") 86399) "b" 86401).usage_data
      0 "a" = none := by decide

/-- Claim C3, amended: when last_app is set, the tick credits the whole
elapsed interval now - last_time to last_app under the calendar day
containing NOW (current_date is computed from datetime.now() at the tick),
never the day containing lastTimestamp, and never split: every other
(day, application) entry is unchanged. -/
theorem c3_credit_day_of_now (s : Tracker) (p : String) (now : Int)
    (a : String) (ha : s.last_app = some a) :
    lookup2 (tick s p now).usage_data (dayOf now) a =
      some ((lookup2 s.usage_data (dayOf now) a).getD 0 + (now - s.last_time)) ∧
    ∀ (d : Int) (b : String), ¬(d = dayOf now ∧ b = a) →
      lookup2 (tick s p now).usage_data d b = lookup2 s.usage_data d b := by
  constructor
  · simp only [tick, ha]
    exact lookup2_credit_self _ _ _ _
  · intro d b hdb
    simp only [tick, ha]
    exact lookup2_credit_other _ _ _ _ _ _ hdb

/-- Claim C3 witness: the amended theorem evaluated at a concrete
midnight-straddling tick. -/
theorem c3_witness :
    (Tracker.mk [] (some "a") 86399).last_app = some "a" ∧
    lookup2 (tick (Tracker.mk [] (some "a") 86399) "b" 86401).usage_data
        (dayOf 86401) "a" =
      some ((lookup2 (Tracker.mk [] (some "a") 86399).usage_data
        (dayOf 86401) "a").getD 0 + (86401 - 86399)) ∧
    lookup2 (tick (Tracker.mk [] (some "a") 86399) "b" 86401).usage_data
        0 "a" =
      lookup2 (Tracker.mk [] (some "a") 86399).usage_data 0 "a" :=
  ⟨rfl,
    (c3_credit_day_of_now (Tracker.mk [] (some "a") 86399) "b" 86401 "a"
      rfl).1,
    (c3_credit_day_of_now (Tracker.mk [] (some "a") 86399) "b" 86401 "a"
      rfl).2 0 "a" (by decide)⟩

/-! ### Claim C10 -/

/-- Claim C10 (confirmed): save_data (and hence stop_tracking, which only
clears the running flag, joins the thread and calls save_data) leaves
last_app and last_time unchanged after the close-out flush; consequently if
tracking resumes, the first tick of the new session credits the entire
interval from the pre-stop last_time to the new clock reading to the
pre-stop last_app. -/
theorem c10_sampler_fields (s : Tracker) (now : Int) (file : Option FileData)
    (outcome : SaveFail) (p : String) (now2 : Int) (a : String)
    (ha : s.last_app = some a) :
    (save_data s now file outcome).1.last_app = s.last_app ∧
    (save_data s now file outcome).1.last_time = s.last_time ∧
    lookup2 (tick (save_data s now file outcome).1 p now2).usage_data
        (dayOf now2) a =
      some ((lookup2 ((save_data s now file outcome).1).usage_data
        (dayOf now2) a).getD 0 + (now2 - s.last_time)) := by
  have h1 : (save_flush s now).last_app = s.last_app := by
    unfold save_flush
    rw [ha]
    by_cases hb : a = ""
    · subst hb
      simp [ha]
    · simp [hb]
  have h2 : (save_flush s now).last_time = s.last_time := by
    unfold save_flush
    rw [ha]
    by_cases hb : a = "" <;> simp [hb]
  have hsd : (save_data s now file outcome).1 = save_flush s now := by
    cases outcome <;> rfl
  refine ⟨by rw [hsd]; exact h1, by rw [hsd]; exact h2, ?_⟩
  rw [hsd]
  have ha2 : (save_flush s now).last_app = some a := by rw [h1, ha]
  simp only [tick, ha2, h2]
  exact lookup2_credit_self _ _ _ _

/-- Claim C10 witness: a session stopped at time 150 with last_app = "a",
last_time = 100, then resumed with a tick at time 300: the sampler fields
survive the save and the new tick credits 300 - 100 seconds to "a". -/
theorem c10_witness :
    (Tracker.mk [] (some "a") 100).last_app = some "a" ∧
    ((save_data (Tracker.mk [] (some "a") 100) 150 none SaveFail.ok).1.last_app =
        (Tracker.mk [] (some "a") 100).last_app ∧
      (save_data (Tracker.mk [] (some "a") 100) 150 none SaveFail.ok).1.last_time =
        (Tracker.mk [] (some "a") 100).last_time ∧
      lookup2 (tick (save_data (Tracker.mk [] (some "a") 100) 150 none
          SaveFail.ok).1 "b" 300).usage_data (dayOf 300) "a" =
        some ((lookup2 ((save_data (Tracker.mk [] (some "a") 100) 150 none
          SaveFail.ok).1).usage_data (dayOf 300) "a").getD 0 +
          (300 - (Tracker.mk [] (some "a") 100).last_time))) :=
  ⟨rfl,
    c10_sampler_fields (Tracker.mk [] (some "a") 100) 150 none SaveFail.ok
      "b" 300 "a" rfl⟩

/-! ### Claim C8 -/

/-- Claim C8 counterexample: two applications with equal seconds, inserted
in the order "b" then "a", are returned in insertion order "b", "a" by
get_summary (Python sorted is stable), not in ascending identifier order
"a", "b" as the claim states. -/
theorem c8_counterexample :
    (get_summary (Tracker.mk [(0, [("b", 5), ("a", 5)])] none 0)
        (some 0) 0).1.1 = [("b", 5), ("a", 5)] ∧
    [(("b" : String), (5 : Int)), ("a", 5)] ≠ [("a", 5), ("b", 5)] := by
  decide

/-- Claim C8, amended: get_summary returns the entries of the requested
date sorted by descending seconds, with ties between equal-valued entries
kept in dict insertion order (Python sorted is stable; there is no
identifier tie-break); totalSeconds is the sum of the entries, replaced by
1 when the sum is zero. -/
theorem c8_summary_sorted (s : Tracker) (d today : Int) :
    ((get_summary s (some d) today).1.1).Perm
      ((lookupDay s.usage_data d).getD []) ∧
    List.Pairwise (fun p q : String × Int => q.2 ≤ p.2)
      ((get_summary s (some d) today).1.1) ∧
    (∀ v : Int,
      ((get_summary s (some d) today).1.1).filter (fun p => decide (p.2 = v)) =
        ((lookupDay s.usage_data d).getD []).filter
          (fun p => decide (p.2 = v))) ∧
    (get_summary s (some d) today).1.2 =
      (if sumApps ((lookupDay s.usage_data d).getD []) = 0 then 1
        else sumApps ((lookupDay s.usage_data d).getD [])) := by
  refine ⟨?_, ?_, ?_, ?_⟩
  · exact pySortDesc_perm _
  · exact pySortDesc_pairwise _
  · intro v
    exact filter_pySortDesc _ _
  · rfl

/-! ### Claim C4 -/

/-- Claim C4 counterexample: get_summary with the date omitted is NOT free
of hidden mutation: usage_data is a defaultdict, so indexing it with the
current day (here 6) inserts an empty entry for that day when it is absent,
changing the set of dates present in the store. -/
theorem c4_counterexample :
    ((get_summary (Tracker.mk [(5, [("a", 3)])] none 0) none 6).2).usage_data =
      [(5, [("a", 3)]), (6, [])] ∧
    [((5 : Int), [(("a" : String), (3 : Int))]), (6, [])] ≠
      [(5, [("a", 3)])] := by decide

/-- Claim C4, amended: get_summary with an explicit date leaves the tracker
completely unchanged; with the date omitted every accumulated
per-application total is unchanged and every other date entry is unchanged,
but if the current day is absent from the store an empty entry for it is
inserted (defaultdict indexing), so the set of dates present can grow by
the current day. -/
theorem c4_summary_mutation :
    (∀ (s : Tracker) (d today : Int), (get_summary s (some d) today).2 = s) ∧
    (∀ (s : Tracker) (today : Int),
      (∀ (d : Int) (a : String),
        lookup2 ((get_summary s none today).2).usage_data d a =
          lookup2 s.usage_data d a) ∧
      (∀ d : Int, d ≠ today →
        lookupDay ((get_summary s none today).2).usage_data d =
          lookupDay s.usage_data d) ∧
      ((lookupDay s.usage_data today).isSome = true →
        (get_summary s none today).2 = s) ∧
      (lookupDay s.usage_data today = none →
        ((get_summary s none today).2).usage_data =
          s.usage_data ++ [(today, [])])) := by
  constructor
  · intro s d today
    rfl
  · intro s today
    cases hl : lookupDay s.usage_data today with
    | some apps =>
        have hst : (get_summary s none today).2 = s := by
          simp only [get_summary, hl]
        refine ⟨?_, ?_, ?_, ?_⟩
        · intro d a
          rw [hst]
        · intro d _
          rw [hst]
        · intro _
          exact hst
        · intro hc
          exact Option.noConfusion hc
    | none =>
        have hst : ((get_summary s none today).2).usage_data =
            s.usage_data ++ [(today, [])] := by
          simp only [get_summary, hl]
        refine ⟨?_, ?_, ?_, ?_⟩
        · intro d a
          rw [hst]
          unfold lookup2
          rw [lookupDay_append]
          cases h2 : lookupDay s.usage_data d with
          | some apps => rfl
          | none =>
              by_cases hd : today = d
              · subst hd
                simp [lookupDay, lookupApp]
              · simp [lookupDay, hd]
        · intro d hd
          rw [hst, lookupDay_append]
          cases h2 : lookupDay s.usage_data d with
          | some apps => rfl
          | none => simp [lookupDay, Ne.symm hd]
        · intro hc
          simp at hc
        · intro _
          exact hst

/-- Claim C4 witness: the amended theorem evaluated concretely: an explicit
date is pure, and an omitted date with the current day (6) absent appends
an empty entry for day 6. -/
theorem c4_witness :
    (get_summary (Tracker.mk [(5, [("a", 3)])] none 0) (some 5) 6).2 =
      Tracker.mk [(5, [("a", 3)])] none 0 ∧
    lookupDay (Tracker.mk [(5, [("a", 3)])] none 0).usage_data 6 = none ∧
    ((get_summary (Tracker.mk [(5, [("a", 3)])] none 0) none 6).2).usage_data =
      (Tracker.mk [(5, [("a", 3)])] none 0).usage_data ++ [(6, [])] :=
  ⟨c4_summary_mutation.1 (Tracker.mk [(5, [("a", 3)])] none 0) 5 6,
    by decide,
    (c4_summary_mutation.2 (Tracker.mk [(5, [("a", 3)])] none 0) 6).2.2.2
      (by decide)⟩

/-! ### Claim C1 -/

/-- Claim C1 counterexample: ticks at times 0 and 10 (probe "a"), a
mid-session saveNow at time 15, a tick at time 20 (probe "c") and the final
stop flush at time 20. Because save_data credits time.time() - last_time
but does not advance last_time, the interval [10, 15) is credited twice:
the day total is 25 seconds although lastTick.time - firstTick.time is
20 - 0 = 20 and the final flush at 20 adds 0. -/
theorem c1_counterexample :
    storeTotal ((save_data (tick ((save_data (runTicks (initTracker 0)
        [("a", 0), ("a", 10)]) 15 none SaveFail.ok).1) "c" 20) 20 none
        SaveFail.ok).1).usage_data = 25 ∧ (25 : Int) ≠ 20 - 0 := by decide

/-- Claim C1, amended: for a run of ticks with NO mid-session saveNow, the
total credited over all days and applications telescopes with no interval
credited twice: after ticks at times t1 .. tN from a fresh tracker the
store total is exactly tN - t1, and the stop-time close-out flush at time T
adds exactly its own adjustment (T - tN when the last probe result is
truthy, else 0). A mid-session saveNow breaks this, double-crediting the
interval from the last tick to the save, because save_data does not advance
last_time (see the counterexample). -/
theorem c1_run_total (t0 : Int) (p : String) (t : Int)
    (rest : List (String × Int)) (T : Int) :
    storeTotal (runTicks (initTracker t0) ((p, t) :: rest)).usage_data =
      (runTicks (initTracker t0) ((p, t) :: rest)).last_time - t ∧
    storeTotal (save_flush (runTicks (initTracker t0) ((p, t) :: rest))
        T).usage_data =
      ((runTicks (initTracker t0) ((p, t) :: rest)).last_time - t) +
        flushCredit (runTicks (initTracker t0) ((p, t) :: rest)) T := by
  have hfirst : runTicks (initTracker t0) ((p, t) :: rest) =
      runTicks (Tracker.mk [] (some p) t) rest := by
    simp [runTicks, tick, initTracker]
  have htot := runTicks_total rest (Tracker.mk [] (some p) t) p rfl
  have h1 : storeTotal (runTicks (initTracker t0) ((p, t) :: rest)).usage_data =
      (runTicks (initTracker t0) ((p, t) :: rest)).last_time - t := by
    rw [hfirst, htot]
    simp [storeTotal]
  refine ⟨h1, ?_⟩
  rw [storeTotal_save_flush, h1]

/-- Every entry the load loop adds to the store has a date key that
strptime parsed and that passed the 7-day retention check. -/
theorem loadLoop_retention (now : Int) (entries : List (DKey × JApps)) :
    ∀ acc : RawStore,
      (∀ e ∈ acc, ∃ d : Int, e.1 = DKey.valid d ∧
        now - d * secPerDay ≤ 7 * secPerDay) →
      ∀ e ∈ (loadLoop now acc entries).1,
        ∃ d : Int, e.1 = DKey.valid d ∧
          now - d * secPerDay ≤ 7 * secPerDay := by
  induction entries with
  | nil =>
      intro acc hacc e he
      exact hacc e he
  | cons hd rest ih =>
      obtain ⟨date, apps⟩ := hd
      intro acc hacc e he
      simp only [loadLoop] at he
      by_cases hmem : (rawLookup acc date).isSome = true
      · rw [if_pos hmem] at he
        exact ih acc hacc e he
      · rw [if_neg hmem] at he
        cases date with
        | invalid s2 => exact hacc e he
        | valid d =>
            dsimp only at he
            by_cases hret : now - d * secPerDay ≤ 7 * secPerDay
            · rw [if_pos hret] at he
              have hext : ∀ kvs : List (String × JLeaf),
                  ∀ e2 ∈ acc ++ [(DKey.valid d, kvs)],
                    ∃ d2 : Int, e2.1 = DKey.valid d2 ∧
                      now - d2 * secPerDay ≤ 7 * secPerDay := by
                intro kvs e2 he2
                rcases List.mem_append.mp he2 with h2 | h2
                · exact hacc e2 h2
                · rcases List.mem_singleton.mp h2 with rfl
                  exact ⟨d, rfl, hret⟩
              cases apps with
              | aobj kvs => exact ih _ (hext kvs) e he
              | aleaf v =>
                  cases v with
                  | jstr str =>
                      dsimp only at he
                      by_cases hstr : str = ""
                      · rw [if_pos hstr] at he
                        exact ih _ (hext []) e he
                      · rw [if_neg hstr] at he
                        exact hext [] e he
                  | jnum n => exact hext [] e he
                  | jbool b => exact hext [] e he
                  | jnull => exact hext [] e he
            · rw [if_neg hret] at he
              exact ih acc hacc e he

/-! ### Claim C5 -/

/-- Claim C5 counterexample: the load and save horizons differ and save
does not prune the in-memory store. With now = 7 days + 1 second after the
midnight of day 0 (so day 0 is older than 7 days: the load filter
now - d*86400 <= 7*86400 would drop it), save_data still writes day 0 to
the file, because its filter uses floor((now - d*86400)/86400) <= 7; and
with now = 100 days, day 0 stays in the in-memory store after a save. -/
theorem c5_counterexample :
    (save_data (Tracker.mk [(0, [("a", 5)])] none 0) (7 * secPerDay + 1) none
        SaveFail.ok).2.1 = some (FileData.good [(0, [("a", 5)])]) ∧
    7 * secPerDay < (7 * secPerDay + 1) - 0 * secPerDay ∧
    ((save_data (Tracker.mk [(0, [("a", 5)])] none 0) (100 * secPerDay) none
        SaveFail.ok).1).usage_data = [(0, [("a", 5)])] := by decide

/-- Claim C5, amended: after a load, every retained day d satisfies
now - d*86400 <= 7*86400 (within 7 days of the load-time now). Save applies
a different horizon, and only to the serialized copy: the written file
retains exactly the days with floor((now - d*86400)/86400) <= 7, which
keeps days up to just under 8 days old; the in-memory store is not pruned
by save at all (no date present before a save disappears from it). -/
theorem c5_retention :
    (∀ (now : Int) (file : Option (Except LoadErr JTop))
        (e : DKey × List (String × JLeaf)), e ∈ (load_data now file).1 →
      ∃ d : Int, e.1 = DKey.valid d ∧
        now - d * secPerDay ≤ 7 * secPerDay) ∧
    (∀ (st : Store) (now d : Int) (apps : Apps),
      (d, apps) ∈ save_filter st now ↔
        (d, apps) ∈ st ∧ Int.fdiv (now - d * secPerDay) secPerDay ≤ 7) ∧
    (∀ (s : Tracker) (now : Int) (file : Option FileData)
        (outcome : SaveFail) (d : Int),
      (lookupDay s.usage_data d).isSome = true →
      (lookupDay ((save_data s now file outcome).1).usage_data d).isSome =
        true) := by
  refine ⟨?_, ?_, ?_⟩
  · intro now file e he
    cases file with
    | none => simp [load_data] at he
    | some r =>
        cases r with
        | error err => simp [load_data] at he
        | ok top =>
            cases top with
            | tobj entries =>
                refine loadLoop_retention now entries [] ?_ e he
                intro e2 he2
                simp at he2
            | tarr elems => simp [load_data] at he
            | tleaf v => simp [load_data] at he
  · intro st now d apps
    simp [save_filter, List.mem_filter]
  · intro s now file outcome d h
    exact lookupDay_save_isSome s now file outcome d h

/-- Claim C5 witness: the amended theorem evaluated concretely: a loaded
entry for day 0 at now = 0 passes the retention bound, and a save leaves
the in-memory date 3 present. -/
theorem c5_witness :
    (∃ d : Int,
      (DKey.valid 0, ([("a", JLeaf.jnum 1)] : List (String × JLeaf))).1 =
        DKey.valid d ∧ (0 : Int) - d * secPerDay ≤ 7 * secPerDay) ∧
    (lookupDay ((save_data (Tracker.mk [(3, [("b", 2)])] none 0) 0 none
        SaveFail.ok).1).usage_data 3).isSome = true :=
  ⟨c5_retention.1 0
      (some (.ok (.tobj [(DKey.valid 0, JApps.aobj [("a", JLeaf.jnum 1)])])))
      (DKey.valid 0, [("a", JLeaf.jnum 1)]) (by decide),
    c5_retention.2.2 (Tracker.mk [(3, [("b", 2)])] none 0) 0 none SaveFail.ok
      3 (by decide)⟩

/-! ### Claim C6 -/

/-- Claim C6 counterexample: not every malformed file yields an empty store
without failing. A durable file whose JSON top level is an array raises an
uncaught AttributeError at data.items(), aborting startup; and a file with
one well-formed date entry followed by an unparseable date key loads the
first entry before the caught ValueError stops the loop, leaving a
NON-empty store. -/
theorem c6_counterexample :
    load_data 0 (some (.ok (JTop.tarr []))) = ([], some PyExc.attrError) ∧
    load_data 0 (some (.ok (JTop.tobj
        [(DKey.valid 0, JApps.aobj [("a", JLeaf.jnum 3)]),
          (DKey.invalid "bad-date", JApps.aobj [])]))) =
      ([(DKey.valid 0, [("a", JLeaf.jnum 3)])], none) := by decide

/-- Claim C6, amended: load_data is non-fatal and leaves the store empty
only for a missing file and for the errors it catches at open/json.load
time (IOError, json.JSONDecodeError); a ValueError while processing entries
silently keeps what was already loaded, and a non-object top level or a
non-iterable per-date value raises out of load uncaught. -/
theorem c6_load_errors_empty :
    (∀ now : Int, load_data now none = ([], none)) ∧
    (∀ (now : Int) (err : LoadErr),
      load_data now (some (.error err)) = ([], none)) :=
  ⟨fun _ => rfl, fun _ _ => rfl⟩

/-! ### Claim C7 -/

/-- Claim C7 counterexample: a negative per-entry seconds value is NOT
dropped on load: dict.update copies it verbatim and the store retains
"app" -> -5. -/
theorem c7_counterexample :
    load_data 0 (some (.ok (JTop.tobj [(DKey.valid 0,
        JApps.aobj [("app", JLeaf.jnum (-5))])]))) =
      ([(DKey.valid 0, [("app", JLeaf.jnum (-5))])], none) ∧
    (-5 : Int) < 0 := by decide

/-- Claim C7, amended: load_data performs no per-entry validation at all:
for a date within retention whose value is a JSON object, every key/value
pair - including negative or non-numeric seconds values - is copied into
the store verbatim; no individual entry is ever dropped. -/
theorem c7_load_verbatim (now d : Int) (kvs : List (String × JLeaf))
    (h : now - d * secPerDay ≤ 7 * secPerDay) :
    load_data now (some (.ok (JTop.tobj [(DKey.valid d, JApps.aobj kvs)]))) =
      ([(DKey.valid d, kvs)], none) := by
  simp [load_data, loadLoop, rawLookup, h]

/-- Claim C7 witness: the amended theorem evaluated at a file holding a
non-numeric (string) seconds value, which is loaded verbatim. -/
theorem c7_witness :
    ((0 : Int) - 0 * secPerDay ≤ 7 * secPerDay) ∧
    load_data 0 (some (.ok (JTop.tobj [(DKey.valid 0,
        JApps.aobj [("x", JLeaf.jstr "oops")])]))) =
      ([(DKey.valid 0, [("x", JLeaf.jstr "oops")])], none) :=
  ⟨by decide, c7_load_verbatim 0 0 [("x", JLeaf.jstr "oops")] (by decide)⟩

/-! ### Claim C9 -/

/-- Claim C9 counterexample: save_data opens the durable file itself with
mode w (truncating it) and writes in place - there is no
write-to-temp-then-rename - so a failure once writing has begun leaves the
file corrupt, not the previously durable, loadable content. -/
theorem c9_counterexample :
    (save_data (Tracker.mk [] none 0) 0
        (some (FileData.good [(0, [("a", 1)])])) SaveFail.duringWrite).2.1 =
      some FileData.corrupt ∧
    some FileData.corrupt ≠ some (FileData.good [(0, [("a", 1)])]) := by
  decide

/-- Claim C9, amended: save_data reports every failure by returning false
rather than raising (the whole body is wrapped in try/except Exception),
and a failure at open, before truncation, leaves the previous file intact;
but a failure during the write leaves the durable file truncated or
partially written, because the data is written directly to the durable
path with no temp-then-rename. In-memory data is retained in all cases, so
a later retry can succeed. -/
theorem c9_save_failure (s : Tracker) (now : Int) (file : Option FileData) :
    (save_data s now file SaveFail.atOpen).2.1 = file ∧
    (save_data s now file SaveFail.atOpen).2.2 = false ∧
    (save_data s now file SaveFail.duringWrite).2.1 = some FileData.corrupt ∧
    (save_data s now file SaveFail.duringWrite).2.2 = false ∧
    (save_data s now file SaveFail.ok).2.2 = true ∧
    (∀ (outcome : SaveFail) (d : Int),
      (lookupDay s.usage_data d).isSome = true →
      (lookupDay ((save_data s now file outcome).1).usage_data d).isSome =
        true) := by
  refine ⟨rfl, rfl, rfl, rfl, rfl, ?_⟩
  intro outcome d h
  exact lookupDay_save_isSome s now file outcome d h

/-- Claim C9 witness: the amended theorem evaluated concretely: a failed
open reports false, and after a mid-write failure the in-memory day 1 is
still present. -/
theorem c9_witness :
    (save_data (Tracker.mk [(1, [("a", 2)])] none 0) 5 none
        SaveFail.atOpen).2.2 = false ∧
    (lookupDay (Tracker.mk [(1, [("a", 2)])] none 0).usage_data 1).isSome =
      true ∧
    (lookupDay ((save_data (Tracker.mk [(1, [("a", 2)])] none 0) 5 none
        SaveFail.duringWrite).1).usage_data 1).isSome = true :=
  ⟨(c9_save_failure (Tracker.mk [(1, [("a", 2)])] none 0) 5 none).2.1,
    by decide,
    (c9_save_failure (Tracker.mk [(1, [("a", 2)])] none 0) 5 none).2.2.2.2.2
      SaveFail.duringWrite 1 (by decide)⟩

end SOT
